import Mathlib

/-
Verification development for the ESP32 telemetry sender (src/sender.cpp).

The embedding models the link-reliability core: the sensor-read fallback
logic (readSensors, lines 67-122), the delivery-outcome callback
(OnDataSent, lines 129-151), ESP-NOW bring-up (initESPNow, lines 156-223,
with the fallible esp_now calls supplied by an environment record), the
guarded send (sendData, lines 228-244), the startup retry block (setup,
lines 282-309), and the interval scheduler (loop, lines 326-351).

C float values reaching the core are either NaN or an ordinary value; the
only float operations the modelled paths perform are the isnan test and
comparison against 0.0, so floats are embedded as an inductive over exact
rational values, with NaN compared unequal to 0.0 as in IEEE.
-/

namespace Sender

/-- Model of a C float as the sender uses it: NaN or an exact value. -/
inductive FP where
  | NaN : FP
  | Val : ℚ → FP
deriving DecidableEq, Repr

/-- The C isnan test. -/
def FP.isnan : FP → Bool
  | FP.NaN => true
  | FP.Val _ => false

/-- The C comparison x == 0.0f; false for NaN, as in IEEE arithmetic. -/
def FP.eqZero : FP → Bool
  | FP.NaN => false
  | FP.Val x => x == 0

/-- The sensor_data struct (lines 30-38). -/
structure SensorData where
  temperature : FP
  humidity : FP
  mq_value : Int
  heartRate : FP
  spo2 : FP
  mac : String
  timestamp : Nat
deriving DecidableEq, Repr

/-- Inputs readSensors pulls from the environment in one invocation:
the two DHT reads, the raw ADC read, the two random draws, the MAC
string and the millis clock. -/
structure SensorInputs where
  temp : FP
  hum : FP
  mqRaw : Int
  hrRand : ℚ
  spo2Rand : ℚ
  macStr : String
  now : Nat
deriving DecidableEq, Repr

/-- Embedding of readSensors (lines 67-122) as a function from the inputs
and the previous sensorData global to the updated sensorData. The DHT
branch (lines 73-83) first settles temperature and humidity; the remaining
assignments (ADC validation, simulated vitals with the two clamping tests,
timestamp, MAC) each write one independent field. -/
def readSensors (inp : SensorInputs) (d0 : SensorData) : SensorData :=
  let d1 :=
    if inp.temp.isnan || inp.hum.isnan then
      if d0.temperature.eqZero then
        { d0 with temperature := FP.Val 25, humidity := FP.Val 50 }
      else d0
    else
      { d0 with temperature := inp.temp, humidity := inp.hum }
  let mq : Int := if inp.mqRaw < 0 ∨ inp.mqRaw > 4095 then 0 else inp.mqRaw
  let hr : ℚ := 72 + inp.hrRand / 2
  let sp0 : ℚ := (975 : ℚ) / 10 + inp.spo2Rand / 2
  let sp1 : ℚ := if sp0 > 100 then 100 else sp0
  let sp2 : ℚ := if sp1 < 90 then 90 else sp1
  { d1 with mq_value := mq, heartRate := FP.Val hr, spo2 := FP.Val sp2,
            timestamp := inp.now, mac := inp.macStr }

/-- The link-reliability globals (lines 45-48). -/
structure LinkState where
  espNowConnected : Bool
  successCount : Nat
  failureCount : Nat
deriving DecidableEq, Repr

/-- Global state at boot (lines 45-48): flag clear, counters at zero. -/
def bootState : LinkState :=
  { espNowConnected := false, successCount := 0, failureCount := 0 }

/-- Results of the three fallible esp_now calls one initESPNow run makes:
esp_now_init, esp_now_register_send_cb, esp_now_add_peer. -/
structure InitEnv where
  initOk : Bool
  cbOk : Bool
  addPeerOk : Bool
deriving DecidableEq, Repr

/-- Embedding of initESPNow (lines 156-223): its effect on the link globals
and its Boolean return, following the four early-return paths. -/
def initESPNow (env : InitEnv) (st : LinkState) : LinkState × Bool :=
  if env.initOk = false then ({ st with espNowConnected := false }, false)
  else if env.cbOk = false then (st, false)
  else if env.addPeerOk = false then ({ st with espNowConnected := false }, false)
  else ({ st with espNowConnected := true }, true)

/-- esp_now_add_peer over a modelled peer table: rejects an address already
present, otherwise appends it. -/
def addPeer (table : List Nat) (a : Nat) : List Nat × Bool :=
  if a ∈ table then (table, false) else (table ++ [a], true)

/-- The peer-registration block of initESPNow (lines 197-210): when
esp_now_is_peer_exist reports the address, esp_now_del_peer removes it,
then esp_now_add_peer inserts it. -/
def registerPeer (table : List Nat) (a : Nat) : List Nat × Bool :=
  let t1 := if a ∈ table then table.filter (fun b => b != a) else table
  addPeer t1 a

/-- Return of the esp_now_send call inside sendData. -/
inductive SyncResult where
  | ok : SyncResult
  | rejected : SyncResult
deriving DecidableEq, Repr

/-- What one sendData invocation did. -/
inductive SendOutcome where
  | notReady : SendOutcome
  | queued : SendOutcome
  | syncError : SendOutcome
deriving DecidableEq, Repr

/-- Embedding of sendData (lines 228-244). The Bool component records
whether esp_now_send was invoked at all. -/
def sendData (st : LinkState) (r : SyncResult) : LinkState × Bool × SendOutcome :=
  if st.espNowConnected = false then (st, false, SendOutcome.notReady)
  else
    match r with
    | SyncResult.ok => (st, true, SendOutcome.queued)
    | SyncResult.rejected =>
        ({ st with failureCount := st.failureCount + 1 }, true, SendOutcome.syncError)

/-- The delivery status handed to the OnDataSent callback. -/
inductive SendStatus where
  | success : SendStatus
  | fail : SendStatus
deriving DecidableEq, Repr

/-- Embedding of OnDataSent (lines 129-151). The Nat component counts the
deinit-pause-reinit cycles the callback triggers (the failure-threshold
branch at line 144). -/
def OnDataSent (st : LinkState) (status : SendStatus) (env : InitEnv) : LinkState × Nat :=
  match status with
  | SendStatus.success =>
      ({ st with espNowConnected := true, successCount := st.successCount + 1 }, 0)
  | SendStatus.fail =>
      let st1 := { st with espNowConnected := false,
                           failureCount := st.failureCount + 1 }
      if st1.failureCount % 5 = 0 then ((initESPNow env st1).1, 1)
      else (st1, 0)

/-- One observable event acting on the link globals: an asynchronous
delivery outcome, a send-cycle attempt, or a direct bring-up call. -/
inductive Event where
  | outcome : SendStatus → InitEnv → Event
  | sendAttempt : SyncResult → Event
  | reinit : InitEnv → Event
deriving DecidableEq, Repr

/-- Process one event; the Nat counts reinit cycles the event triggered
through the failure threshold. -/
def step (st : LinkState) (e : Event) : LinkState × Nat :=
  match e with
  | Event.outcome s env => OnDataSent st s env
  | Event.sendAttempt r => ((sendData st r).1, 0)
  | Event.reinit env => ((initESPNow env st).1, 0)

/-- Process a sequence of events. -/
def run (st : LinkState) : List Event → LinkState
  | [] => st
  | e :: es => run (step st e).1 es

/-- Number of delivery outcomes delivered to the callback in a sequence. -/
def countOutcomes : List Event → Nat
  | [] => 0
  | Event.outcome _ _ :: es => countOutcomes es + 1
  | _ :: es => countOutcomes es

/-- Counter increments one event performs in a given state: one for any
delivery outcome, one for a synchronous rejection processed while the
connected flag is set, and zero otherwise. -/
def eventIncrement (st : LinkState) : Event → Nat
  | Event.outcome _ _ => 1
  | Event.sendAttempt SyncResult.rejected => if st.espNowConnected then 1 else 0
  | _ => 0

/-- Counter increments a run actually performs: one per delivery outcome,
plus one per synchronous rejection processed while the flag was set. -/
def countIncrements (st : LinkState) : List Event → Nat
  | [] => 0
  | e :: es => eventIncrement st e + countIncrements (step st e).1 es

/-- 2 to the 32nd, the modulus of the millis tick. -/
def UINT32MOD : Nat := 4294967296

/-- One iteration of loop (lines 326-351): the wraparound guard resets
lastSendTime to the current tick when the clock has wrapped, then the
unsigned elapsed comparison fires a send cycle. Returns the updated
lastSendTime and whether the cycle fired. -/
def loopTick (interval last t : Nat) : Nat × Bool :=
  let last1 := if t < last then t else last
  if interval ≤ t - last1 then (t, true) else (last1, false)

/-- The firing rule as the specification words it: elapsed is the unsigned
modular difference currentTick - lastSendTick, with no state reset. -/
def loopTickSpec (interval last t : Nat) : Nat × Bool :=
  if interval ≤ (t + UINT32MOD - last) % UINT32MOD then (t, true) else (last, false)

/-- Run the loop embedding over a tick sequence; returns the final
lastSendTime and the ticks at which a send cycle fired. -/
def runLoop (interval last : Nat) : List Nat → Nat × List Nat
  | [] => (last, [])
  | t :: ts =>
      let p := loopTick interval last t
      let q := runLoop interval p.1 ts
      (q.1, if p.2 then t :: q.2 else q.2)

/-- Run the specification firing rule over a tick sequence. -/
def runLoopSpec (interval last : Nat) : List Nat → Nat × List Nat
  | [] => (last, [])
  | t :: ts =>
      let p := loopTickSpec interval last t
      let q := runLoopSpec interval p.1 ts
      (q.1, if p.2 then t :: q.2 else q.2)

/-- The ESP-NOW retry block of setup (lines 282-309), one InitEnv per
attempt the loop may make (the list length is MAX_INIT_RETRIES). Returns
the final link state, attempts made, backoff delays taken, and the
initSuccess flag. -/
def setupInit (st : LinkState) : List InitEnv → LinkState × Nat × Nat × Bool
  | [] => (st, 0, 0, false)
  | env :: rest =>
      let p := initESPNow env st
      if p.2 then (p.1, 1, 0, true)
      else
        match rest with
        | [] => (p.1, 1, 0, false)
        | r :: rs =>
            let q := setupInit p.1 (r :: rs)
            (q.1, q.2.1 + 1, q.2.2.1 + 1, q.2.2.2)

/-- An environment in which every esp_now call succeeds. -/
def envAllOk : InitEnv := { initOk := true, cbOk := true, addPeerOk := true }

/-- An environment in which esp_now_init itself fails. -/
def envFail : InitEnv := { initOk := false, cbOk := true, addPeerOk := true }

/-! ## Helper lemmas -/

/-- initESPNow never touches either counter, whatever the environment. -/
theorem initESPNow_counters (env : InitEnv) (st : LinkState) :
    (initESPNow env st).1.successCount = st.successCount ∧
    (initESPNow env st).1.failureCount = st.failureCount := by
  rcases env with ⟨i, c, a⟩
  cases i <;> cases c <;> cases a <;> simp [initESPNow]

/-- The address just removed is absent from the filtered table. -/
theorem notMem_filter_self (l : List Nat) (a : Nat) :
    a ∉ l.filter (fun b => b != a) := by
  intro h
  have := (List.mem_filter.mp h).2
  simp at this

/-- OnDataSent on a Failure outcome leaves successCount alone and adds one
to failureCount, whether or not the reset branch runs. -/
theorem OnDataSent_fail_counters (st : LinkState) (env : InitEnv) :
    (OnDataSent st SendStatus.fail env).1.successCount = st.successCount ∧
    (OnDataSent st SendStatus.fail env).1.failureCount = st.failureCount + 1 := by
  simp only [OnDataSent]
  split
  · exact ⟨(initESPNow_counters env _).1, (initESPNow_counters env _).2⟩
  · exact ⟨rfl, rfl⟩

/-- One step never decreases either counter. -/
theorem step_counters_le (st : LinkState) (e : Event) :
    st.successCount ≤ (step st e).1.successCount ∧
    st.failureCount ≤ (step st e).1.failureCount := by
  cases e with
  | outcome s env =>
      cases s with
      | success =>
          simp only [step, OnDataSent]
          exact ⟨Nat.le_succ _, le_refl _⟩
      | fail =>
          have h := OnDataSent_fail_counters st env
          simp only [step]
          constructor
          · exact le_of_eq h.1.symm
          · rw [h.2]
            exact Nat.le_succ _
  | sendAttempt r =>
      cases hc : st.espNowConnected <;>
        cases r <;> simp [step, sendData, hc]
  | reinit env =>
      have h := initESPNow_counters env st
      simp only [step]
      rw [h.1, h.2]
      exact ⟨le_refl _, le_refl _⟩

/-- One step changes the counter sum by exactly the event increment. -/
theorem step_counter_sum (st : LinkState) (e : Event) :
    (step st e).1.successCount + (step st e).1.failureCount
      = st.successCount + st.failureCount + eventIncrement st e := by
  cases e with
  | outcome s env =>
      cases s with
      | success => simp [step, OnDataSent, eventIncrement]; omega
      | fail =>
          have h := OnDataSent_fail_counters st env
          simp only [step, eventIncrement]
          rw [h.1, h.2]
          omega
  | sendAttempt r =>
      cases hc : st.espNowConnected <;>
        cases r <;> simp [step, sendData, eventIncrement, hc] <;> try omega
  | reinit env =>
      have h := initESPNow_counters env st
      simp only [step, eventIncrement]
      rw [h.1, h.2]
      omega

/-- One registerPeer call always succeeds and leaves exactly one entry for
the address. -/
theorem registerPeer_ok_count (table : List Nat) (a : Nat) :
    (registerPeer table a).2 = true ∧ (registerPeer table a).1.count a = 1 := by
  by_cases h : a ∈ table
  · have hnm := notMem_filter_self table a
    simp [registerPeer, addPeer, h, hnm, List.count_append,
      List.count_eq_zero.mpr hnm]
  · simp [registerPeer, addPeer, h, List.count_append,
      List.count_eq_zero.mpr h]

/-! ## Claims -/

/-- Claim C3: whenever a Failure delivery outcome is processed and the
incremented failureCount is an exact positive multiple of 5, the callback
triggers exactly one deinit-pause-reinit cycle, never more than one. -/
theorem c3_reset_exactly_once (st : LinkState) (env : InitEnv)
    (h : (st.failureCount + 1) % 5 = 0) :
    (OnDataSent st SendStatus.fail env).2 = 1 := by
  simp [OnDataSent, h]

/-- Witness for C3 at failureCount 4: the fifth failure triggers one reset. -/
theorem c3_reset_exactly_once_witness :
    (OnDataSent { espNowConnected := true, successCount := 7, failureCount := 4 }
      SendStatus.fail envAllOk).2 = 1 :=
  c3_reset_exactly_once
    { espNowConnected := true, successCount := 7, failureCount := 4 }
    envAllOk (by decide)

/-- Claim C5: with maxAttempts 3, two failed bring-ups followed by a success
give exactly 3 attempts, 2 backoff delays and a connected end state; three
failures give 3 attempts, 2 delays, a failed end state, and a subsequent
send cycle is skipped without touching the radio or the counters. -/
theorem c5_setup_retry :
    setupInit bootState [envFail, envFail, envAllOk]
      = ({ espNowConnected := true, successCount := 0, failureCount := 0 }, 3, 2, true) ∧
    setupInit bootState [envFail, envFail, envFail]
      = ({ espNowConnected := false, successCount := 0, failureCount := 0 }, 3, 2, false) ∧
    sendData (setupInit bootState [envFail, envFail, envFail]).1 SyncResult.ok
      = ((setupInit bootState [envFail, envFail, envFail]).1, false, SendOutcome.notReady) := by
  decide

/-- Claim C6: registering the same address twice succeeds both times and
leaves exactly one peer entry, from any starting table. -/
theorem c6_register_idempotent (table : List Nat) (a : Nat) :
    (registerPeer table a).2 = true ∧
    (registerPeer (registerPeer table a).1 a).2 = true ∧
    (registerPeer (registerPeer table a).1 a).1.count a = 1 :=
  ⟨(registerPeer_ok_count table a).1,
   (registerPeer_ok_count (registerPeer table a).1 a).1,
   (registerPeer_ok_count (registerPeer table a).1 a).2⟩

/-- Claim C7: with the connected flag clear, sendData reports not-ready,
invokes no transmission, and returns the state unchanged (in particular
both counters are untouched). -/
theorem c7_not_connected_skips (st : LinkState) (r : SyncResult)
    (h : st.espNowConnected = false) :
    sendData st r = (st, false, SendOutcome.notReady) := by
  simp [sendData, h]

/-- Witness for C7 at the boot state. -/
theorem c7_not_connected_skips_witness :
    sendData bootState SyncResult.rejected
      = (bootState, false, SendOutcome.notReady) :=
  c7_not_connected_skips bootState SyncResult.rejected rfl

/-- The scenario tick sequence of claim C1. -/
def c1ticks : List Nat := [4294967290, 4294967294, 2, 6]

/-- Claim C1 counterexample: on the scenario ticks with interval 12 the code
fires only at 4294967290, while the modular elapsed rule the claim describes
also fires at 6; the loop uses a blind reset of lastSendTime at the wrap, so
the post-wrap cycle is skipped. -/
theorem c1_counterexample :
    (runLoop 12 0 c1ticks).2 = [4294967290] ∧
    (runLoopSpec 12 0 c1ticks).2 = [4294967290, 6] ∧
    (runLoop 12 0 c1ticks).2 ≠ (runLoopSpec 12 0 c1ticks).2 := by
  decide

/-- Claim C1 amended: when the clock has wrapped (currentTick strictly below
lastSendTick) the loop blindly resets lastSendTick to the current tick,
computes an elapsed time of zero and does not fire, deferring the post-wrap
send cycle by a full interval instead of using the modular elapsed time. -/
theorem c1_wrap_blind_reset (interval last t : Nat)
    (hw : t < last) (hi : 0 < interval) :
    loopTick interval last t = (t, false) := by
  simp only [loopTick, if_pos hw, Nat.sub_self]
  rw [if_neg (by omega)]

/-- Witness for C1 amended at the wrap tick of the scenario. -/
theorem c1_wrap_blind_reset_witness :
    loopTick 12 4294967290 2 = (2, false) :=
  c1_wrap_blind_reset 12 4294967290 2 (by decide) (by decide)

/-- The event sequence of the claim C2 counterexample. -/
def c2seq : List Event :=
  [Event.outcome SendStatus.success envAllOk,
   Event.sendAttempt SyncResult.rejected]

/-- Claim C2 counterexample: one delivered Success outcome followed by one
synchronously rejected send attempt gives counter sum 2 although only one
delivery outcome reached the callback. -/
theorem c2_counterexample :
    (run bootState c2seq).successCount + (run bootState c2seq).failureCount
        ≠ countOutcomes c2seq ∧
    (run bootState c2seq).successCount + (run bootState c2seq).failureCount = 2 ∧
    countOutcomes c2seq = 1 := by
  decide

/-- Claim C2 amended: the counter sum equals its starting value plus the
number of delivery outcomes delivered plus the number of synchronous send
rejections processed while the connected flag was set. -/
theorem c2_counter_sum (st : LinkState) (es : List Event) :
    (run st es).successCount + (run st es).failureCount
      = st.successCount + st.failureCount + countIncrements st es := by
  induction es generalizing st with
  | nil => simp [run, countIncrements]
  | cons e es ih =>
      simp only [run, countIncrements]
      rw [ih (step st e).1, step_counter_sum st e]
      omega

/-- Claim C8: neither successCount nor failureCount ever decreases across
any sequence of events, reinit cycles and bring-up runs included. -/
theorem c8_counters_monotone (st : LinkState) (es : List Event) :
    st.successCount ≤ (run st es).successCount ∧
    st.failureCount ≤ (run st es).failureCount := by
  induction es generalizing st with
  | nil => exact ⟨le_refl _, le_refl _⟩
  | cons e es ih =>
      have h1 := step_counters_le st e
      have h2 := ih (step st e).1
      exact ⟨le_trans h1.1 h2.1, le_trans h1.2 h2.2⟩

/-- Claim C9: a synchronous send rejection increments failureCount without
any reinit cycle even when the increment lands on a multiple of 5; a Failure
outcome arriving right after it does not reset either (its own increment
misses the multiple); the threshold fires only in the outcome callback, when
the callback increment itself lands on a multiple of 5. -/
theorem c9_sync_reject_no_reset (st : LinkState) (env : InitEnv)
    (hc : st.espNowConnected = true) (h5 : (st.failureCount + 1) % 5 = 0) :
    step st (Event.sendAttempt SyncResult.rejected)
        = ({ st with failureCount := st.failureCount + 1 }, 0) ∧
    (step { st with failureCount := st.failureCount + 1 }
        (Event.outcome SendStatus.fail env)).2 = 0 ∧
    (step st (Event.outcome SendStatus.fail env)).2 = 1 := by
  refine ⟨?_, ?_, ?_⟩
  · simp [step, sendData, hc]
  · have h6 : (st.failureCount + 1 + 1) % 5 = 1 := by omega
    simp [step, OnDataSent, h6]
  · simp [step, OnDataSent, h5]

/-- Witness for C9 at failureCount 4: the rejection lands on 5 with no
reset, the next Failure outcome lands on 6 with no reset, while a direct
fifth Failure outcome resets once. -/
theorem c9_sync_reject_no_reset_witness :
    step { espNowConnected := true, successCount := 0, failureCount := 4 }
        (Event.sendAttempt SyncResult.rejected)
      = ({ espNowConnected := true, successCount := 0, failureCount := 5 }, 0) ∧
    (step { espNowConnected := true, successCount := 0, failureCount := 5 }
        (Event.outcome SendStatus.fail envAllOk)).2 = 0 ∧
    (step { espNowConnected := true, successCount := 0, failureCount := 4 }
        (Event.outcome SendStatus.fail envAllOk)).2 = 1 :=
  c9_sync_reject_no_reset
    { espNowConnected := true, successCount := 0, failureCount := 4 }
    envAllOk rfl (by decide)

/-- Previous sensorData for the claim C4 scenario: a nonzero stored pair. -/
def c4prev : SensorData :=
  { temperature := FP.Val 20, humidity := FP.Val 30, mq_value := 5,
    heartRate := FP.Val 70, spo2 := FP.Val 97, mac := "", timestamp := 0 }

/-- Inputs for the claim C4 scenario: NaN temperature, valid humidity 45. -/
def c4inp : SensorInputs :=
  { temp := FP.NaN, hum := FP.Val 45, mqRaw := 100, hrRand := 0,
    spo2Rand := 0, macStr := "", now := 10 }

/-- Claim C4 counterexample: with NaN temperature and a freshly read valid
humidity of 45, the prepared record keeps the previous humidity 30 and does
not contain the humidity value that was just read. -/
theorem c4_counterexample :
    (readSensors c4inp c4prev).humidity = FP.Val 30 ∧
    (readSensors c4inp c4prev).humidity ≠ FP.Val 45 := by
  decide

/-- Claim C4 amended: with a NaN temperature reading the just-read humidity
is discarded; the record keeps the previous temperature and humidity when
the stored temperature is nonzero and otherwise takes the defaults 25 and
50, and the transmitted temperature is never NaN. -/
theorem c4_nan_temp_discards_humidity (inp : SensorInputs) (d : SensorData)
    (ht : inp.temp.isnan = true) (hd : d.temperature.isnan = false) :
    (readSensors inp d).temperature.isnan = false ∧
    (readSensors inp d).temperature
        = (if d.temperature.eqZero then FP.Val 25 else d.temperature) ∧
    (readSensors inp d).humidity
        = (if d.temperature.eqZero then FP.Val 50 else d.humidity) := by
  cases hz : d.temperature.eqZero with
  | true =>
      have h1 : (readSensors inp d).temperature = FP.Val 25 := by
        simp [readSensors, ht, hz]
      have h2 : (readSensors inp d).humidity = FP.Val 50 := by
        simp [readSensors, ht, hz]
      refine ⟨?_, ?_, ?_⟩
      · rw [h1]
        rfl
      · rw [h1]
        simp
      · rw [h2]
        simp
  | false =>
      have h1 : (readSensors inp d).temperature = d.temperature := by
        simp [readSensors, ht, hz]
      have h2 : (readSensors inp d).humidity = d.humidity := by
        simp [readSensors, ht, hz]
      refine ⟨?_, ?_, ?_⟩
      · rw [h1]
        exact hd
      · rw [h1]
        simp
      · rw [h2]
        simp

/-- Witness for C4 amended at the scenario inputs. -/
theorem c4_nan_temp_discards_humidity_witness :
    (readSensors c4inp c4prev).temperature.isnan = false ∧
    (readSensors c4inp c4prev).temperature
        = (if c4prev.temperature.eqZero then FP.Val 25 else c4prev.temperature) ∧
    (readSensors c4inp c4prev).humidity
        = (if c4prev.temperature.eqZero then FP.Val 50 else c4prev.humidity) :=
  c4_nan_temp_discards_humidity c4inp c4prev (by decide) (by decide)

/-- Claim C10: on a DHT fault the stored temperature and humidity are kept
unchanged exactly when the stored temperature is nonzero; a stored
temperature equal to 0.0 forces both fields to the defaults 25 and 50. -/
theorem c10_fault_frame (inp : SensorInputs) (d : SensorData)
    (hf : (inp.temp.isnan || inp.hum.isnan) = true) :
    (((readSensors inp d).temperature = d.temperature ∧
      (readSensors inp d).humidity = d.humidity)
        ↔ d.temperature.eqZero = false) ∧
    (d.temperature.eqZero = true →
      (readSensors inp d).temperature = FP.Val 25 ∧
      (readSensors inp d).humidity = FP.Val 50) := by
  cases hz : d.temperature.eqZero with
  | false => simp [readSensors, hf, hz]
  | true =>
      have hval : (readSensors inp d).temperature = FP.Val 25 ∧
          (readSensors inp d).humidity = FP.Val 50 := by
        simp [readSensors, hf, hz]
      refine ⟨⟨fun h => ?_, fun h => ?_⟩, fun _ => hval⟩
      · exfalso
        have hdt : d.temperature = FP.Val 25 := by rw [← h.1, hval.1]
        rw [hdt] at hz
        exact absurd hz (by decide)
      · exact Bool.noConfusion h

/-- Fault inputs for the C10 witness: both DHT reads NaN. -/
def c10inp : SensorInputs :=
  { temp := FP.NaN, hum := FP.NaN, mqRaw := 0, hrRand := 0, spo2Rand := 0,
    macStr := "", now := 3 }

/-- Previous sensorData for the C10 witness: nonzero stored temperature. -/
def c10prev : SensorData :=
  { temperature := FP.Val 21, humidity := FP.Val 40, mq_value := 1,
    heartRate := FP.Val 70, spo2 := FP.Val 97, mac := "", timestamp := 1 }

/-- Witness for C10 at a fault reading over a nonzero stored temperature. -/
theorem c10_fault_frame_witness :
    (((readSensors c10inp c10prev).temperature = c10prev.temperature ∧
      (readSensors c10inp c10prev).humidity = c10prev.humidity)
        ↔ c10prev.temperature.eqZero = false) ∧
    (c10prev.temperature.eqZero = true →
      (readSensors c10inp c10prev).temperature = FP.Val 25 ∧
      (readSensors c10inp c10prev).humidity = FP.Val 50) :=
  c10_fault_frame c10inp c10prev (by decide)

end Sender
